import Mathlib

/-!
The keyring password rotation extension of dpa-ext-gnomekeyring.

A shallow embedding of `src/gnomekeyringextention.cpp`.

* A `QString` is its sequence of UTF-16 code units, and `==` on `QString`
  is equality of those sequences.
* The host proxy (`m_proxy->actionID()`, `m_proxy->password()`), the
  check box `m_checkBtn` and the two account properties read over D-Bus are
  inputs of the embedded member functions.
* Calls into libsecret and GIO are answered by an environment (`Env`); what
  the routine does with them is recorded as a list of `Event`s.
-/

namespace GnomeKeyringExtention

/-! ## Strings -/

/-- A `QString`: its UTF-16 code units, in order. -/
abbrev QString := List Nat

/-- UTF-16 code units of one Unicode scalar value (a surrogate pair above
the basic plane). -/
def utf16Units (c : Char) : List Nat :=
  if c.toNat < 0x10000 then [c.toNat]
  else [0xD800 + (c.toNat - 0x10000) / 0x400, 0xDC00 + (c.toNat - 0x10000) % 0x400]

/-- Construction of a `QString` from a C string literal. -/
def QString.fromLiteral (s : String) : QString :=
  s.toList.flatMap utf16Units

/-! ## Constants (lines 14-23) -/

def PasswordSecretValueContentType : String := "text/plain"
def LoginKeyringPath : String := "/org/freedesktop/secrets/collection/login"

def ActionEnableAutoLogin : QString :=
  QString.fromLiteral "org.deepin.dde.accounts.enable-auto-login"
def ActionDisableAutoLogin : QString :=
  QString.fromLiteral "org.deepin.dde.accounts.disable-auto-login"
def ActionEnableNopassLogin : QString :=
  QString.fromLiteral "org.deepin.dde.accounts.enable-nopass-login"
def ActionDisableNopassLogin : QString :=
  QString.fromLiteral "org.deepin.dde.accounts.disable-nopass-login"
def ActionEnrollFingerprint : QString :=
  QString.fromLiteral "org.deepin.dde.authenticate.Fingerprint.enroll"
def ActionEnrollFace : QString :=
  QString.fromLiteral "org.deepin.dde.authenticate.Face.enroll"
def ActionEnrollIris : QString :=
  QString.fromLiteral "org.deepin.dde.authenticate.Iris.enroll"

/-- Body of `interestedActions` (lines 57-70): the list built with `<<`. -/
def interestedActions : List QString :=
  [ActionEnableAutoLogin, ActionDisableAutoLogin, ActionEnableNopassLogin,
   ActionDisableNopassLogin, ActionEnrollFingerprint, ActionEnrollFace,
   ActionEnrollIris]

/-! ## Action classification and the consent check box -/

/-- The three ways `extendedDo` treats an action identifier: the first
branch (empty the keyring password), the second branch (restore it), or
neither. -/
inductive RotationIntent
  | EmptyPassword
  | RestorePassword
  | Ignore
  deriving DecidableEq, Repr

/-- Branch selection of `extendedDo` (lines 118-130): the `if` on the five
enable and enroll identifiers, the `else if` on the two disable identifiers,
and no `else`. -/
def classify (actionID : QString) : RotationIntent :=
  if actionID = ActionEnableAutoLogin ∨
     actionID = ActionEnableNopassLogin ∨
     actionID = ActionEnrollFingerprint ∨
     actionID = ActionEnrollFace ∨
     actionID = ActionEnrollIris then
    RotationIntent.EmptyPassword
  else if actionID = ActionDisableAutoLogin ∨ actionID = ActionDisableNopassLogin then
    RotationIntent.RestorePassword
  else
    RotationIntent.Ignore

/-- Values of `Qt::CheckState`. -/
inductive CheckState
  | Unchecked
  | PartiallyChecked
  | Checked
  deriving DecidableEq, Repr

/-- The state of a `QCheckBox` the extension reads and writes. -/
structure QCheckBox where
  text : QString
  checkState : CheckState
  deriving DecidableEq, Repr

/-- A freshly constructed check box (`new QCheckBox`): no text, unchecked. -/
def QCheckBox.new : QCheckBox :=
  { text := [], checkState := CheckState.Unchecked }

/-- Effect of `QAbstractButton::setChecked` on a check box. -/
def QCheckBox.setChecked (b : QCheckBox) (checked : Bool) : QCheckBox :=
  { b with checkState := if checked then CheckState.Checked else CheckState.Unchecked }

/-- Label selection of `options` (lines 84-92): the source text handed to
`tr` for `setText`, or `none` when neither branch runs and the text is left
as it was. -/
def optionsLabel (actionID : QString) : Option String :=
  if actionID = ActionEnableAutoLogin ∨
     actionID = ActionEnableNopassLogin ∨
     actionID = ActionEnrollFingerprint ∨
     actionID = ActionEnrollFace ∨
     actionID = ActionEnrollIris then
    some "Empty keyring password"
  else if actionID = ActionDisableAutoLogin ∨ actionID = ActionDisableNopassLogin then
    some "Restore keyring password"
  else
    none

/-- Body of `options` (lines 77-111) as a function of the action identifier,
the check box held in `m_checkBtn` (`none` when null) and the two account
properties `NoPasswdLogin` and `AutomaticLogin`; `tr` is the installed
translation. The result is the check box placed in the returned group. -/
def options (tr : String → QString) (actionID : QString) (m_checkBtn : Option QCheckBox)
    (npLogin amLogin : Bool) : QCheckBox :=
  let btn : QCheckBox :=
    match m_checkBtn with
    | some b => b
    | none => QCheckBox.new
  let btn : QCheckBox :=
    match optionsLabel actionID with
    | some label => { btn with text := tr label }
    | none => btn
  btn.setChecked (!(npLogin && amLogin))

/-- The default consent `options` leaves on the check box: whether it is
checked. -/
def defaultConsent (tr : String → QString) (actionID : QString) (m_checkBtn : Option QCheckBox)
    (npLogin amLogin : Bool) : Bool :=
  decide ((options tr actionID m_checkBtn npLogin amLogin).checkState = CheckState.Checked)

/-! ## libsecret and GIO -/

/-- A `GError`, reduced to its message. -/
structure GError where
  message : String
  deriving DecidableEq, Repr

/-- A pointer to a library object, identified by a number. -/
abbrev Handle := Nat

/-- A `SecretValue`: a byte buffer and its content type. -/
structure SecretValue where
  secret : List Nat
  content_type : String
  deriving DecidableEq, Repr

/-- The library's `secret_value_new (secret, length, content_type)`: copies
`length` bytes, or up to the first NUL when `length` is negative. -/
def secret_value_new (secret : List Nat) (length : Int) (content_type : String) : SecretValue :=
  { secret := if length < 0 then secret.takeWhile (fun b => b != 0) else secret.take length.toNat
    content_type := content_type }

/-- Qt's `QString::toLatin1`: one byte per UTF-16 code unit, a code unit
above U+00FF replaced by a question mark. -/
def toLatin1 (s : QString) : List Nat :=
  s.map (fun u => if u > 0xFF then 0x3F else u)

/-- The value of `secret_service_encode_dbus_secret (service, value)`, kept
symbolic: the secret `value` in the transport encoding of the session of
`service`. -/
structure EncodedSecret where
  service : Handle
  value : SecretValue
  deriving DecidableEq, Repr

/-- Arguments of one `g_dbus_connection_call_sync`; `parameters` is the
tuple built by `g_variant_new` in argument order. -/
structure RemoteCall where
  connection : Handle
  bus_name : String
  object_path : String
  interface_name : String
  method_name : String
  parameters : String × EncodedSecret × EncodedSecret
  timeout_msec : Int
  deriving DecidableEq, Repr

def G_MAXINT : Int := 2147483647

/-- Outcome of `secret_service_get_sync`: a service, or `NULL` with the
error set. -/
inductive ServiceResult
  | ok (service : Handle)
  | failed (err : GError)
  deriving DecidableEq, Repr

/-- Outcome of `secret_collection_for_alias_sync`: the error set, or no
error and `NULL` (no collection has the alias), or a collection. -/
inductive CollectionResult
  | failed (err : GError)
  | absent
  | found (collection : Handle)
  deriving DecidableEq, Repr

/-- Outcome of `g_bus_get_sync`: a connection, or `NULL` with the error
set. -/
inductive BusResult
  | ok (bus : Handle)
  | failed (err : GError)
  deriving DecidableEq, Repr

/-- Outcome of `g_dbus_connection_call_sync`: the reply, or `NULL` with the
error set. -/
inductive CallResult
  | ok (ret : Handle)
  | failed (err : GError)
  deriving DecidableEq, Repr

/-- How the secrets service and the session bus answer during one run. -/
structure Env where
  secret_service_get_sync : ServiceResult
  secret_collection_for_alias_sync : Handle → CollectionResult
  g_bus_get_sync : BusResult
  g_dbus_connection_call_sync : RemoteCall → CallResult

/-! ## The rotation routine -/

/-- The pointers `setKeyringPassword` holds: its six function-level locals
and the block-level `collection`. -/
inductive Var
  | err
  | service
  | collection
  | bus
  | currentValue
  | newPassValue
  | ret
  deriving DecidableEq, Repr

/-- What one run does that can be observed from outside. `acquire v` is a
library call storing a reference owned by the routine in `v`; `release v` is
the matching `g_error_free`, `g_object_unref`, `secret_value_unref` or
`g_variant_unref` on `v`. -/
inductive Event
  | enter (current newPass : QString)
  | qWarning (text detail : String)
  | qDebug (text : String)
  | acquire (v : Var)
  | release (v : Var)
  | call (c : RemoteCall)
  deriving DecidableEq, Repr

/-- The function-level locals of `setKeyringPassword` (lines 147-152);
`none` is `nullptr`. -/
structure Locals where
  err : Option GError
  service : Option Handle
  bus : Option Handle
  currentValue : Option SecretValue
  newPassValue : Option SecretValue
  ret : Option Handle
  deriving DecidableEq, Repr

/-- The locals as initialised on entry: all null. -/
def Locals.init : Locals :=
  { err := none, service := none, bus := none,
    currentValue := none, newPassValue := none, ret := none }

/-- The arguments of the `g_dbus_connection_call_sync` of lines 187-200, for
the service, bus and secret values held at that point. -/
def changeCall (service bus : Handle) (currentValue newPassValue : SecretValue) : RemoteCall :=
  { connection := bus
    bus_name := "org.gnome.keyring"
    object_path := "/org/freedesktop/secrets"
    interface_name := "org.gnome.keyring.InternalUnsupportedGuiltRiddenInterface"
    method_name := "ChangeWithMasterPassword"
    parameters :=
      (LoginKeyringPath,
       { service := service, value := currentValue },
       { service := service, value := newPassValue })
    timeout_msec := G_MAXINT }

/-- The `do ... while (false)` block of `setKeyringPassword` (lines
154-205): the locals when the block is left, by `break` or at its end, and
the events up to there. -/
def setKeyringPasswordBlock (env : Env) (current newPass : QString) : Locals × List Event :=
  match env.secret_service_get_sync with
  | ServiceResult.failed e =>
    ({ Locals.init with err := some e },
     [Event.acquire Var.err, Event.qWarning "failed to get secret service:" e.message])
  | ServiceResult.ok service =>
    match env.secret_collection_for_alias_sync service with
    | CollectionResult.failed e =>
      ({ Locals.init with service := some service, err := some e },
       [Event.acquire Var.service, Event.acquire Var.err,
        Event.qWarning "failed to get default secret collection:" e.message])
    | CollectionResult.absent =>
      ({ Locals.init with service := some service },
       [Event.acquire Var.service, Event.qDebug "default secret collection not exists"])
    | CollectionResult.found _collection =>
      let currentLatin1 := toLatin1 current
      let currentValue :=
        secret_value_new currentLatin1 currentLatin1.length PasswordSecretValueContentType
      let newPassLatin1 := toLatin1 newPass
      let newPassValue :=
        secret_value_new newPassLatin1 newPassLatin1.length PasswordSecretValueContentType
      match env.g_bus_get_sync with
      | BusResult.failed e =>
        ({ Locals.init with
             service := some service, currentValue := some currentValue,
             newPassValue := some newPassValue, err := some e },
         [Event.acquire Var.service, Event.acquire Var.collection,
          Event.acquire Var.currentValue, Event.acquire Var.newPassValue,
          Event.acquire Var.err, Event.qWarning "failed to get session bus:" e.message])
      | BusResult.ok bus =>
        let c := changeCall service bus currentValue newPassValue
        match env.g_dbus_connection_call_sync c with
        | CallResult.failed e =>
          ({ Locals.init with
               service := some service, currentValue := some currentValue,
               newPassValue := some newPassValue, bus := some bus, err := some e },
           [Event.acquire Var.service, Event.acquire Var.collection,
            Event.acquire Var.currentValue, Event.acquire Var.newPassValue,
            Event.acquire Var.bus, Event.call c, Event.acquire Var.err,
            Event.qWarning "failed to change keyring password:" e.message])
        | CallResult.ok ret =>
          ({ Locals.init with
               service := some service, currentValue := some currentValue,
               newPassValue := some newPassValue, bus := some bus, ret := some ret },
           [Event.acquire Var.service, Event.acquire Var.collection,
            Event.acquire Var.currentValue, Event.acquire Var.newPassValue,
            Event.acquire Var.bus, Event.call c, Event.acquire Var.ret])

/-- One guarded release of the cleanup: `if (p != nullptr) free (p)`. -/
def releaseIfSet {α : Type} (p : Option α) (v : Var) : List Event :=
  match p with
  | some _ => [Event.release v]
  | none => []

/-- The cleanup of `setKeyringPassword` (lines 207-212), in source order. -/
def setKeyringPasswordCleanup (l : Locals) : List Event :=
  releaseIfSet l.err Var.err ++
  releaseIfSet l.service Var.service ++
  releaseIfSet l.bus Var.bus ++
  releaseIfSet l.currentValue Var.currentValue ++
  releaseIfSet l.newPassValue Var.newPassValue ++
  releaseIfSet l.ret Var.ret

/-- The routine `setKeyringPassword (current, newPass)` (lines 145-213): the
events of one run, from entry to return. -/
def setKeyringPassword (env : Env) (current newPass : QString) : List Event :=
  Event.enter current newPass ::
    ((setKeyringPasswordBlock env current newPass).2 ++
      setKeyringPasswordCleanup (setKeyringPasswordBlock env current newPass).1)

/-- The routine `emptyKeyringPassword` (lines 133-137). -/
def emptyKeyringPassword (env : Env) (password : QString) : List Event :=
  Event.qDebug "empty keyring password" :: setKeyringPassword env password []

/-- The routine `restoreKeyringPassword` (lines 139-143). -/
def restoreKeyringPassword (env : Env) (password : QString) : List Event :=
  Event.qDebug "restore keyring password" :: setKeyringPassword env [] password

/-- The guard `!m_checkBtn.isNull() && m_checkBtn.data()->checkState() ==
Qt::Checked` of `extendedDo`. -/
def checkBtnChecked (m_checkBtn : Option QCheckBox) : Bool :=
  match m_checkBtn with
  | some b => decide (b.checkState = CheckState.Checked)
  | none => false

/-- The routine `extendedDo` (lines 113-131), given the proxy's action
identifier and password and the check box. -/
def extendedDo (env : Env) (actionID password : QString) (m_checkBtn : Option QCheckBox) :
    List Event :=
  match classify actionID with
  | RotationIntent.EmptyPassword =>
    if checkBtnChecked m_checkBtn then emptyKeyringPassword env password else []
  | RotationIntent.RestorePassword =>
    if checkBtnChecked m_checkBtn then restoreKeyringPassword env password else []
  | RotationIntent.Ignore => []

/-! ## Reading a run -/

/-- The remote calls of a run, in order. -/
def remoteCalls : List Event → List RemoteCall
  | [] => []
  | Event.call c :: t => c :: remoteCalls t
  | _ :: t => remoteCalls t

/-- The number of times a run enters `setKeyringPassword`. -/
def invocations : List Event → Nat
  | [] => 0
  | Event.enter _ _ :: t => invocations t + 1
  | _ :: t => invocations t

/-- The outcomes the rotation can end in. -/
inductive RotationOutcome
  | Done
  | ServiceUnavailable
  | CollectionLookupFailed
  | CollectionAbsent
  | BusUnavailable
  | RotationRejected
  deriving DecidableEq, Repr

/-- The outcome a log line of `setKeyringPassword` reports, if it is one
of the five the routine writes before a `break`. -/
def loggedOutcome : Event → Option RotationOutcome
  | Event.qWarning text _ =>
    if text = "failed to get secret service:" then some RotationOutcome.ServiceUnavailable
    else if text = "failed to get default secret collection:" then
      some RotationOutcome.CollectionLookupFailed
    else if text = "failed to get session bus:" then some RotationOutcome.BusUnavailable
    else if text = "failed to change keyring password:" then
      some RotationOutcome.RotationRejected
    else none
  | Event.qDebug text =>
    if text = "default secret collection not exists" then some RotationOutcome.CollectionAbsent
    else none
  | _ => none

/-- The outcome of a run: that of its first log line reporting one, and
`Done` when the run logs none. -/
def rotationOutcome (run : List Event) : RotationOutcome :=
  match run.filterMap loggedOutcome with
  | o :: _ => o
  | [] => RotationOutcome.Done

/-- Whether an event is a warning. -/
def Event.isWarning : Event → Bool
  | Event.qWarning _ _ => true
  | _ => false

/-- A password all of whose code units are in the Latin-1 range. -/
def isLatin1 (s : QString) : Prop := ∀ u ∈ s, u ≤ 0xFF

instance (s : QString) : Decidable (isLatin1 s) := by
  unfold isLatin1; infer_instance

/-- An environment in which every step succeeds. -/
def Env.allOk : Env :=
  { secret_service_get_sync := ServiceResult.ok 1
    secret_collection_for_alias_sync := fun _ => CollectionResult.found 2
    g_bus_get_sync := BusResult.ok 3
    g_dbus_connection_call_sync := fun _ => CallResult.ok 4 }

/-! ## Classification -/

/-- The seven identifiers are pairwise distinct. -/
theorem interestedActions_nodup : interestedActions.Nodup := by decide

/-- Membership in the list of `interestedActions`, spelled out. -/
theorem mem_interestedActions (a : QString) :
    a ∈ interestedActions ↔
      a = ActionEnableAutoLogin ∨ a = ActionDisableAutoLogin ∨
      a = ActionEnableNopassLogin ∨ a = ActionDisableNopassLogin ∨
      a = ActionEnrollFingerprint ∨ a = ActionEnrollFace ∨ a = ActionEnrollIris := by
  simp [interestedActions]

/-- The first branch of `extendedDo` is taken exactly for the five enable
and enroll identifiers. -/
theorem classify_eq_empty (a : QString) :
    classify a = RotationIntent.EmptyPassword ↔
      a = ActionEnableAutoLogin ∨ a = ActionEnableNopassLogin ∨
      a = ActionEnrollFingerprint ∨ a = ActionEnrollFace ∨ a = ActionEnrollIris := by
  unfold classify
  split_ifs with h1 h2 <;> simp [h1]

/-- The second branch of `extendedDo` is taken exactly for the two disable
identifiers. -/
theorem classify_eq_restore (a : QString) :
    classify a = RotationIntent.RestorePassword ↔
      a = ActionDisableAutoLogin ∨ a = ActionDisableNopassLogin := by
  unfold classify
  split_ifs with h1 h2
  · rcases h1 with rfl | rfl | rfl | rfl | rfl <;> decide
  · simp [h2]
  · simp [h2]

/-- Neither branch of `extendedDo` is taken exactly for the identifiers
outside the seven. -/
theorem classify_eq_ignore (a : QString) :
    classify a = RotationIntent.Ignore ↔ a ∉ interestedActions := by
  rw [mem_interestedActions]
  unfold classify
  split_ifs with h1 h2
  · rcases h1 with rfl | rfl | rfl | rfl | rfl <;> decide
  · rcases h2 with rfl | rfl <;> decide
  · simp only [not_or] at h1 h2
    simp [h1, h2]

/-- The label `options` picks follows the branch `extendedDo` takes. -/
theorem optionsLabel_eq (a : QString) :
    optionsLabel a =
      match classify a with
      | RotationIntent.EmptyPassword => some "Empty keyring password"
      | RotationIntent.RestorePassword => some "Restore keyring password"
      | RotationIntent.Ignore => none := by
  unfold optionsLabel classify
  split_ifs <;> rfl

/-- C1: the branch `extendedDo` takes for an action identifier, and with
it the label `options` picks, is the fixed table, by comparison of whole
strings: the five enable and enroll identifiers give `EmptyPassword`, the
two disable identifiers give `RestorePassword`, every other string gives
`Ignore`. -/
theorem classify_table (a : QString) :
    classify ActionEnableAutoLogin = RotationIntent.EmptyPassword ∧
    classify ActionEnableNopassLogin = RotationIntent.EmptyPassword ∧
    classify ActionEnrollFingerprint = RotationIntent.EmptyPassword ∧
    classify ActionEnrollFace = RotationIntent.EmptyPassword ∧
    classify ActionEnrollIris = RotationIntent.EmptyPassword ∧
    classify ActionDisableAutoLogin = RotationIntent.RestorePassword ∧
    classify ActionDisableNopassLogin = RotationIntent.RestorePassword ∧
    (classify a = RotationIntent.EmptyPassword ↔
      a = QString.fromLiteral "org.deepin.dde.accounts.enable-auto-login" ∨
      a = QString.fromLiteral "org.deepin.dde.accounts.enable-nopass-login" ∨
      a = QString.fromLiteral "org.deepin.dde.authenticate.Fingerprint.enroll" ∨
      a = QString.fromLiteral "org.deepin.dde.authenticate.Face.enroll" ∨
      a = QString.fromLiteral "org.deepin.dde.authenticate.Iris.enroll") ∧
    (classify a = RotationIntent.RestorePassword ↔
      a = QString.fromLiteral "org.deepin.dde.accounts.disable-auto-login" ∨
      a = QString.fromLiteral "org.deepin.dde.accounts.disable-nopass-login") ∧
    (classify a = RotationIntent.Ignore ↔
      ¬ (a = QString.fromLiteral "org.deepin.dde.accounts.enable-auto-login" ∨
         a = QString.fromLiteral "org.deepin.dde.accounts.disable-auto-login" ∨
         a = QString.fromLiteral "org.deepin.dde.accounts.enable-nopass-login" ∨
         a = QString.fromLiteral "org.deepin.dde.accounts.disable-nopass-login" ∨
         a = QString.fromLiteral "org.deepin.dde.authenticate.Fingerprint.enroll" ∨
         a = QString.fromLiteral "org.deepin.dde.authenticate.Face.enroll" ∨
         a = QString.fromLiteral "org.deepin.dde.authenticate.Iris.enroll")) ∧
    optionsLabel a =
      (match classify a with
       | RotationIntent.EmptyPassword => some "Empty keyring password"
       | RotationIntent.RestorePassword => some "Restore keyring password"
       | RotationIntent.Ignore => none) := by
  refine ⟨by decide, by decide, by decide, by decide, by decide, by decide, by decide,
    classify_eq_empty a, classify_eq_restore a, ?_, optionsLabel_eq a⟩
  rw [classify_eq_ignore, mem_interestedActions]
  rfl

/-! ## Default consent -/

/-- The check state `options` leaves depends on the two flags only. -/
theorem options_checkState (tr : String → QString) (a : QString) (btn : Option QCheckBox)
    (npLogin amLogin : Bool) :
    (options tr a btn npLogin amLogin).checkState =
      if !(npLogin && amLogin) then CheckState.Checked else CheckState.Unchecked := by
  unfold options QCheckBox.setChecked
  cases optionsLabel a <;> rfl

/-- The default consent is the negated conjunction of the two flags, for
every action identifier. -/
theorem defaultConsent_eq (tr : String → QString) (a : QString) (btn : Option QCheckBox)
    (npLogin amLogin : Bool) :
    defaultConsent tr a btn npLogin amLogin = !(amLogin && npLogin) := by
  unfold defaultConsent
  rw [options_checkState]
  cases npLogin <;> cases amLogin <;> rfl

/-- C4: for a disable identifier the default consent `options` computes is
`not (autoLogin and noPasswordLogin)`: false when both flags are true, true
for the three other combinations. -/
theorem defaultConsent_restore (tr : String → QString) (a : QString)
    (btn : Option QCheckBox) (npLogin amLogin : Bool)
    (_hintent : classify a = RotationIntent.RestorePassword) :
    defaultConsent tr a btn npLogin amLogin = !(amLogin && npLogin) ∧
    (defaultConsent tr a btn npLogin amLogin = false ↔ amLogin = true ∧ npLogin = true) ∧
    defaultConsent tr a btn true true = false ∧
    defaultConsent tr a btn false true = true ∧
    defaultConsent tr a btn true false = true ∧
    defaultConsent tr a btn false false = true := by
  simp only [defaultConsent_eq]
  cases npLogin <;> cases amLogin <;> simp

/-- C4 at `disable-auto-login` with auto-login on and password-less login
off: the box is checked. -/
theorem defaultConsent_restore_witness :
    classify ActionDisableAutoLogin = RotationIntent.RestorePassword ∧
    defaultConsent QString.fromLiteral ActionDisableAutoLogin none false true = true :=
  ⟨by decide,
   (defaultConsent_restore QString.fromLiteral ActionDisableAutoLogin none false true
      (by decide)).2.2.2.1⟩

/-- C5 as stated fails: for `enable-auto-login`, whose intent is
`EmptyPassword`, with both flags true the default consent is false. -/
theorem defaultConsent_enable_both_flags :
    classify ActionEnableAutoLogin = RotationIntent.EmptyPassword ∧
    defaultConsent QString.fromLiteral ActionEnableAutoLogin none true true = false := by
  decide

/-- C5, amended: for every identifier that is not a disable identifier the
default consent `options` computes is true for every value of the two flags
other than both true, and false when both are true; the default is false
exactly when both flags are true. -/
theorem defaultConsent_not_restore (tr : String → QString) (a : QString)
    (btn : Option QCheckBox) (npLogin amLogin : Bool)
    (_hintent : classify a ≠ RotationIntent.RestorePassword) :
    defaultConsent tr a btn npLogin amLogin = !(amLogin && npLogin) ∧
    (defaultConsent tr a btn npLogin amLogin = false ↔ amLogin = true ∧ npLogin = true) ∧
    defaultConsent tr a btn true true = false ∧
    defaultConsent tr a btn false true = true ∧
    defaultConsent tr a btn true false = true ∧
    defaultConsent tr a btn false false = true := by
  simp only [defaultConsent_eq]
  cases npLogin <;> cases amLogin <;> simp

/-- C5, amended, at `Fingerprint.enroll` with no flag set: the box is
checked. -/
theorem defaultConsent_not_restore_witness :
    classify ActionEnrollFingerprint ≠ RotationIntent.RestorePassword ∧
    defaultConsent QString.fromLiteral ActionEnrollFingerprint none false false = true :=
  ⟨by decide,
   (defaultConsent_not_restore QString.fromLiteral ActionEnrollFingerprint none false false
      (by decide)).2.2.2.2.2⟩

/-! ## The paths of one run -/

/-- The secret value lines 175-176 and 178-179 build from a password. -/
theorem secret_value_new_toLatin1 (p : QString) :
    secret_value_new (toLatin1 p) (toLatin1 p).length PasswordSecretValueContentType =
      { secret := toLatin1 p, content_type := "text/plain" } := by
  simp [secret_value_new, PasswordSecretValueContentType]

/-- The six paths through `setKeyringPassword`, each with the whole run it
produces: failure to open the session, lookup error, collection absent, bus
failure, remote call rejected, success. -/
theorem setKeyringPassword_paths (env : Env) (current newPass : QString) :
    (∃ e, env.secret_service_get_sync = ServiceResult.failed e ∧
      setKeyringPassword env current newPass =
        [Event.enter current newPass, Event.acquire Var.err,
         Event.qWarning "failed to get secret service:" e.message,
         Event.release Var.err]) ∨
    (∃ s e, env.secret_service_get_sync = ServiceResult.ok s ∧
      env.secret_collection_for_alias_sync s = CollectionResult.failed e ∧
      setKeyringPassword env current newPass =
        [Event.enter current newPass, Event.acquire Var.service, Event.acquire Var.err,
         Event.qWarning "failed to get default secret collection:" e.message,
         Event.release Var.err, Event.release Var.service]) ∨
    (∃ s, env.secret_service_get_sync = ServiceResult.ok s ∧
      env.secret_collection_for_alias_sync s = CollectionResult.absent ∧
      setKeyringPassword env current newPass =
        [Event.enter current newPass, Event.acquire Var.service,
         Event.qDebug "default secret collection not exists",
         Event.release Var.service]) ∨
    (∃ s c e, env.secret_service_get_sync = ServiceResult.ok s ∧
      env.secret_collection_for_alias_sync s = CollectionResult.found c ∧
      env.g_bus_get_sync = BusResult.failed e ∧
      setKeyringPassword env current newPass =
        [Event.enter current newPass, Event.acquire Var.service, Event.acquire Var.collection,
         Event.acquire Var.currentValue, Event.acquire Var.newPassValue,
         Event.acquire Var.err, Event.qWarning "failed to get session bus:" e.message,
         Event.release Var.err, Event.release Var.service,
         Event.release Var.currentValue, Event.release Var.newPassValue]) ∨
    (∃ s c b e, env.secret_service_get_sync = ServiceResult.ok s ∧
      env.secret_collection_for_alias_sync s = CollectionResult.found c ∧
      env.g_bus_get_sync = BusResult.ok b ∧
      env.g_dbus_connection_call_sync
        (changeCall s b { secret := toLatin1 current, content_type := "text/plain" }
          { secret := toLatin1 newPass, content_type := "text/plain" }) = CallResult.failed e ∧
      setKeyringPassword env current newPass =
        [Event.enter current newPass, Event.acquire Var.service, Event.acquire Var.collection,
         Event.acquire Var.currentValue, Event.acquire Var.newPassValue,
         Event.acquire Var.bus,
         Event.call (changeCall s b { secret := toLatin1 current, content_type := "text/plain" }
          { secret := toLatin1 newPass, content_type := "text/plain" }),
         Event.acquire Var.err,
         Event.qWarning "failed to change keyring password:" e.message,
         Event.release Var.err, Event.release Var.service, Event.release Var.bus,
         Event.release Var.currentValue, Event.release Var.newPassValue]) ∨
    (∃ s c b r, env.secret_service_get_sync = ServiceResult.ok s ∧
      env.secret_collection_for_alias_sync s = CollectionResult.found c ∧
      env.g_bus_get_sync = BusResult.ok b ∧
      env.g_dbus_connection_call_sync
        (changeCall s b { secret := toLatin1 current, content_type := "text/plain" }
          { secret := toLatin1 newPass, content_type := "text/plain" }) = CallResult.ok r ∧
      setKeyringPassword env current newPass =
        [Event.enter current newPass, Event.acquire Var.service, Event.acquire Var.collection,
         Event.acquire Var.currentValue, Event.acquire Var.newPassValue,
         Event.acquire Var.bus,
         Event.call (changeCall s b { secret := toLatin1 current, content_type := "text/plain" }
          { secret := toLatin1 newPass, content_type := "text/plain" }),
         Event.acquire Var.ret,
         Event.release Var.service, Event.release Var.bus,
         Event.release Var.currentValue, Event.release Var.newPassValue,
         Event.release Var.ret]) := by
  unfold setKeyringPassword setKeyringPasswordBlock
  cases hs : env.secret_service_get_sync with
  | failed e => simp [setKeyringPasswordCleanup, releaseIfSet, Locals.init]
  | ok s =>
    cases hc : env.secret_collection_for_alias_sync s with
    | failed e => simp [hc, setKeyringPasswordCleanup, releaseIfSet, Locals.init]
    | absent => simp [hc, setKeyringPasswordCleanup, releaseIfSet, Locals.init]
    | found c =>
      cases hb : env.g_bus_get_sync with
      | failed e => simp [hc, hb, setKeyringPasswordCleanup, releaseIfSet, Locals.init]
      | ok b =>
        simp only [hc, hb, secret_value_new_toLatin1]
        cases hr : env.g_dbus_connection_call_sync
            (changeCall s b { secret := toLatin1 current, content_type := "text/plain" }
              { secret := toLatin1 newPass, content_type := "text/plain" }) with
        | failed e => simp [hc, hr, setKeyringPasswordCleanup, releaseIfSet, Locals.init]
        | ok r => simp [hc, hr, setKeyringPasswordCleanup, releaseIfSet, Locals.init]

/-! ## Invocation of the rotator -/

/-- One run of `setKeyringPassword` is one entry. -/
theorem invocations_setKeyringPassword (env : Env) (current newPass : QString) :
    invocations (setKeyringPassword env current newPass) = 1 := by
  rcases setKeyringPassword_paths env current newPass with
    ⟨_, _, h⟩ | ⟨_, _, _, _, h⟩ | ⟨_, _, _, h⟩ | ⟨_, _, _, _, _, _, h⟩ |
    ⟨_, _, _, _, _, _, _, _, h⟩ | ⟨_, _, _, _, _, _, _, _, h⟩ <;>
  · rw [h]; rfl

/-- The guard of `extendedDo` holds exactly when the check box exists and
its state is `Checked`. -/
theorem checkBtnChecked_iff (m_checkBtn : Option QCheckBox) :
    checkBtnChecked m_checkBtn = true ↔
      ∃ b, m_checkBtn = some b ∧ b.checkState = CheckState.Checked := by
  cases m_checkBtn <;> simp [checkBtnChecked]

/-- An identifier is one of the seven exactly when `extendedDo` takes one of
its two branches for it. -/
theorem mem_interestedActions_iff (a : QString) :
    a ∈ interestedActions ↔ classify a ≠ RotationIntent.Ignore := by
  rw [Ne, classify_eq_ignore, not_not]

/-- C2: `extendedDo` enters `setKeyringPassword` exactly once when the
identifier is one of the seven and the check box exists and is checked, and
not at all otherwise: never for an unrecognised identifier, and not for a
recognised one whose box is unchecked or absent. -/
theorem extendedDo_invocations (env : Env) (actionID password : QString)
    (m_checkBtn : Option QCheckBox) :
    (invocations (extendedDo env actionID password m_checkBtn) = 1 ↔
      actionID ∈ interestedActions ∧
        ∃ b, m_checkBtn = some b ∧ b.checkState = CheckState.Checked) ∧
    (invocations (extendedDo env actionID password m_checkBtn) = 0 ↔
      ¬ (actionID ∈ interestedActions ∧
        ∃ b, m_checkBtn = some b ∧ b.checkState = CheckState.Checked)) ∧
    (actionID ∉ interestedActions → extendedDo env actionID password m_checkBtn = []) ∧
    ((¬ ∃ b, m_checkBtn = some b ∧ b.checkState = CheckState.Checked) →
      extendedDo env actionID password m_checkBtn = []) := by
  have he : invocations (emptyKeyringPassword env password) = 1 :=
    invocations_setKeyringPassword env password []
  have hr : invocations (restoreKeyringPassword env password) = 1 :=
    invocations_setKeyringPassword env [] password
  have h0 : invocations [] = 0 := rfl
  simp only [← checkBtnChecked_iff, mem_interestedActions_iff]
  unfold extendedDo
  cases hc : classify actionID <;> cases hb : checkBtnChecked m_checkBtn <;>
    simp [he, hr, h0]

/-! ## The secret payload -/

/-- Conversion to Latin-1 leaves a Latin-1 string as it is. -/
theorem toLatin1_of_isLatin1 (p : QString) (h : isLatin1 p) : toLatin1 p = p := by
  unfold toLatin1
  conv_rhs => rw [← List.map_id p]
  apply List.map_congr_left
  intro u hu
  have := h u hu
  simp only [id]
  split_ifs with h1
  · omega
  · rfl

/-- A string that conversion to Latin-1 leaves as it is, is Latin-1. -/
theorem isLatin1_of_toLatin1 (p : QString) (h : toLatin1 p = p) : isLatin1 p := by
  induction p with
  | nil => intro u hu; cases hu
  | cons a t ih =>
    simp only [toLatin1, List.map_cons, List.cons.injEq] at h
    intro u hu
    rcases List.mem_cons.mp hu with rfl | hu
    · by_contra hgt
      have h1 := h.1
      rw [if_pos (by omega)] at h1
      omega
    · exact ih h.2 u hu

/-- The bytes of a Latin-1 conversion: one per code unit, the unit itself
up to U+00FF and 0x3F above, so that the conversion returns the string
exactly when the string is Latin-1. -/
theorem toLatin1_bytes (p : QString) :
    (toLatin1 p).length = p.length ∧
    (∀ (i : Nat) (u : Nat), p[i]? = some u →
      (toLatin1 p)[i]? = some (if u ≤ 0xFF then u else 0x3F)) ∧
    (toLatin1 p = p ↔ isLatin1 p) := by
  refine ⟨by simp [toLatin1], ?_, ⟨isLatin1_of_toLatin1 p, toLatin1_of_isLatin1 p⟩⟩
  intro i u hu
  simp only [toLatin1, List.getElem?_map, hu, Option.map_some']
  congr 1
  split_ifs <;> first | rfl | omega

/-- The secret values the block of `setKeyringPassword` holds once the
session and the collection are obtained. -/
theorem setKeyringPasswordBlock_values (env : Env) (current newPass : QString) (s c : Handle)
    (hs : env.secret_service_get_sync = ServiceResult.ok s)
    (hc : env.secret_collection_for_alias_sync s = CollectionResult.found c) :
    (setKeyringPasswordBlock env current newPass).1.currentValue =
      some { secret := toLatin1 current, content_type := "text/plain" } ∧
    (setKeyringPasswordBlock env current newPass).1.newPassValue =
      some { secret := toLatin1 newPass, content_type := "text/plain" } := by
  unfold setKeyringPasswordBlock
  simp only [hs, hc, secret_value_new_toLatin1]
  cases hb : env.g_bus_get_sync with
  | failed e => simp
  | ok b =>
    simp only []
    cases hr : env.g_dbus_connection_call_sync
        (changeCall s b { secret := toLatin1 current, content_type := "text/plain" }
          { secret := toLatin1 newPass, content_type := "text/plain" }) with
    | failed e => simp
    | ok r => simp

/-- The remote call of a run in which the session, the collection and the
bus are obtained. -/
theorem remoteCalls_setKeyringPassword (env : Env) (current newPass : QString)
    (s c b : Handle)
    (hs : env.secret_service_get_sync = ServiceResult.ok s)
    (hc : env.secret_collection_for_alias_sync s = CollectionResult.found c)
    (hb : env.g_bus_get_sync = BusResult.ok b) :
    remoteCalls (setKeyringPassword env current newPass) =
      [changeCall s b { secret := toLatin1 current, content_type := "text/plain" }
        { secret := toLatin1 newPass, content_type := "text/plain" }] := by
  rcases setKeyringPassword_paths env current newPass with
    ⟨_, h, _⟩ | ⟨_, _, h1, h2, _⟩ | ⟨_, h1, h2, _⟩ | ⟨_, _, _, _, _, h, _⟩ |
    ⟨s1, c1, b1, _, h1, _, h3, _, h⟩ | ⟨s1, c1, b1, _, h1, _, h3, _, h⟩
  · simp [hs] at h
  · rw [hs] at h1; cases h1; simp [hc] at h2
  · rw [hs] at h1; cases h1; simp [hc] at h2
  · simp [hb] at h
  · rw [hs] at h1; cases h1; rw [hb] at h3; cases h3
    rw [h]; rfl
  · rw [hs] at h1; cases h1; rw [hb] at h3; cases h3
    rw [h]; rfl

/-- C9: in a run of `setKeyringPassword` that obtains the session, the
collection and the bus, the secret values the routine builds from its two
passwords are the ones it sends, and each payload is the Latin-1 conversion
of its password: one byte per UTF-16 code unit, a code unit up to U+00FF
giving the byte of the same value and every other code unit the byte 0x3F.
The payload equals the password's code units exactly when all are in the
Latin-1 range, and passwords that differ in one non-Latin-1 character, or
have a question mark in its place, send the same call. -/
theorem setKeyringPassword_payload (env : Env) (current newPass : QString) (s c b : Handle)
    (hs : env.secret_service_get_sync = ServiceResult.ok s)
    (hc : env.secret_collection_for_alias_sync s = CollectionResult.found c)
    (hb : env.g_bus_get_sync = BusResult.ok b) :
    (∃ call, remoteCalls (setKeyringPassword env current newPass) = [call] ∧
      (setKeyringPasswordBlock env current newPass).1.currentValue =
        some call.parameters.2.1.value ∧
      (setKeyringPasswordBlock env current newPass).1.newPassValue =
        some call.parameters.2.2.value ∧
      call.parameters.2.1.value.secret.length = current.length ∧
      (∀ (i : Nat) (u : Nat), current[i]? = some u →
        call.parameters.2.1.value.secret[i]? = some (if u ≤ 0xFF then u else 0x3F)) ∧
      (call.parameters.2.1.value.secret = current ↔ isLatin1 current) ∧
      call.parameters.2.2.value.secret.length = newPass.length ∧
      (∀ (i : Nat) (u : Nat), newPass[i]? = some u →
        call.parameters.2.2.value.secret[i]? = some (if u ≤ 0xFF then u else 0x3F)) ∧
      (call.parameters.2.2.value.secret = newPass ↔ isLatin1 newPass)) ∧
    (∃ call, call.parameters.2.1.value.secret = 0x3F :: toLatin1 current ∧
      remoteCalls (setKeyringPassword env (0x4E2D :: current) newPass) = [call] ∧
      remoteCalls (setKeyringPassword env (0x6587 :: current) newPass) = [call] ∧
      remoteCalls (setKeyringPassword env (0x3F :: current) newPass) = [call]) ∧
    (∃ call, call.parameters.2.2.value.secret = 0x3F :: toLatin1 newPass ∧
      remoteCalls (setKeyringPassword env current (0x4E2D :: newPass)) = [call] ∧
      remoteCalls (setKeyringPassword env current (0x6587 :: newPass)) = [call] ∧
      remoteCalls (setKeyringPassword env current (0x3F :: newPass)) = [call]) := by
  have hv := setKeyringPasswordBlock_values env current newPass s c hs hc
  have hcur := toLatin1_bytes current
  have hnew := toLatin1_bytes newPass
  refine ⟨⟨_, remoteCalls_setKeyringPassword env current newPass s c b hs hc hb,
      hv.1, hv.2, hcur.1, hcur.2.1, hcur.2.2, hnew.1, hnew.2.1, hnew.2.2⟩,
    ⟨_, ?_, remoteCalls_setKeyringPassword env (0x4E2D :: current) newPass s c b hs hc hb,
      ?_, ?_⟩,
    ⟨_, ?_, remoteCalls_setKeyringPassword env current (0x4E2D :: newPass) s c b hs hc hb,
      ?_, ?_⟩⟩
  · rfl
  · rw [remoteCalls_setKeyringPassword env (0x6587 :: current) newPass s c b hs hc hb]; rfl
  · rw [remoteCalls_setKeyringPassword env (0x3F :: current) newPass s c b hs hc hb]; rfl
  · rfl
  · rw [remoteCalls_setKeyringPassword env current (0x6587 :: newPass) s c b hs hc hb]; rfl
  · rw [remoteCalls_setKeyringPassword env current (0x3F :: newPass) s c b hs hc hb]; rfl

/-- C9 where every step succeeds: the passwords made of U+4E2D and `a`, and
of a question mark and `a`, both send the two bytes 0x3F 0x61 as current
secret. -/
theorem setKeyringPassword_payload_witness :
    (∃ call, call.parameters.2.1.value.secret = [0x3F, 0x61] ∧
      remoteCalls (setKeyringPassword Env.allOk [0x4E2D, 0x61] []) = [call] ∧
      remoteCalls (setKeyringPassword Env.allOk [0x3F, 0x61] []) = [call]) :=
  (setKeyringPassword_payload Env.allOk [0x61] [] 1 2 3 rfl rfl rfl).2.1.imp
    (fun _ h => ⟨h.1, h.2.1, h.2.2.2⟩)

/-! ## The remote call -/

/-- C3: for a Latin-1 password, when the session, the collection and the bus
are obtained, emptying issues `ChangeWithMasterPassword` on the login
collection path with the password's bytes as current secret (second
argument) and an empty new secret (third argument), restoring issues it with
an empty current secret and the password's bytes as new secret, and all
secrets are tagged `text/plain`. -/
theorem rotation_call_arguments (env : Env) (p : QString) (s c b : Handle)
    (hp : isLatin1 p)
    (hs : env.secret_service_get_sync = ServiceResult.ok s)
    (hc : env.secret_collection_for_alias_sync s = CollectionResult.found c)
    (hb : env.g_bus_get_sync = BusResult.ok b) :
    remoteCalls (emptyKeyringPassword env p) =
      [{ connection := b
         bus_name := "org.gnome.keyring"
         object_path := "/org/freedesktop/secrets"
         interface_name := "org.gnome.keyring.InternalUnsupportedGuiltRiddenInterface"
         method_name := "ChangeWithMasterPassword"
         parameters :=
           ("/org/freedesktop/secrets/collection/login",
            { service := s, value := { secret := p, content_type := "text/plain" } },
            { service := s, value := { secret := [], content_type := "text/plain" } })
         timeout_msec := 2147483647 }] ∧
    remoteCalls (restoreKeyringPassword env p) =
      [{ connection := b
         bus_name := "org.gnome.keyring"
         object_path := "/org/freedesktop/secrets"
         interface_name := "org.gnome.keyring.InternalUnsupportedGuiltRiddenInterface"
         method_name := "ChangeWithMasterPassword"
         parameters :=
           ("/org/freedesktop/secrets/collection/login",
            { service := s, value := { secret := [], content_type := "text/plain" } },
            { service := s, value := { secret := p, content_type := "text/plain" } })
         timeout_msec := 2147483647 }] := by
  have hnil : toLatin1 [] = [] := rfl
  constructor
  · show remoteCalls (setKeyringPassword env p []) = _
    rcases setKeyringPassword_paths env p [] with
      ⟨_, h, _⟩ | ⟨_, _, h1, h2, _⟩ | ⟨_, h1, h2, _⟩ | ⟨_, _, _, _, _, h, _⟩ |
      ⟨s1, c1, b1, _, h1, _, h3, _, h⟩ | ⟨s1, c1, b1, _, h1, _, h3, _, h⟩
    · simp [hs] at h
    · rw [hs] at h1; cases h1; simp [hc] at h2
    · rw [hs] at h1; cases h1; simp [hc] at h2
    · simp [hb] at h
    · rw [hs] at h1; cases h1; rw [hb] at h3; cases h3
      rw [h, toLatin1_of_isLatin1 p hp, hnil]; rfl
    · rw [hs] at h1; cases h1; rw [hb] at h3; cases h3
      rw [h, toLatin1_of_isLatin1 p hp, hnil]; rfl
  · show remoteCalls (setKeyringPassword env [] p) = _
    rcases setKeyringPassword_paths env [] p with
      ⟨_, h, _⟩ | ⟨_, _, h1, h2, _⟩ | ⟨_, h1, h2, _⟩ | ⟨_, _, _, _, _, h, _⟩ |
      ⟨s1, c1, b1, _, h1, _, h3, _, h⟩ | ⟨s1, c1, b1, _, h1, _, h3, _, h⟩
    · simp [hs] at h
    · rw [hs] at h1; cases h1; simp [hc] at h2
    · rw [hs] at h1; cases h1; simp [hc] at h2
    · simp [hb] at h
    · rw [hs] at h1; cases h1; rw [hb] at h3; cases h3
      rw [h, toLatin1_of_isLatin1 p hp, hnil]; rfl
    · rw [hs] at h1; cases h1; rw [hb] at h3; cases h3
      rw [h, toLatin1_of_isLatin1 p hp, hnil]; rfl

/-- C3 at the password `secret123`, every step succeeding: the call carries
the nine bytes of the password as current secret and no byte as new secret. -/
theorem rotation_call_arguments_witness :
    isLatin1 (QString.fromLiteral "secret123") ∧
    remoteCalls (emptyKeyringPassword Env.allOk (QString.fromLiteral "secret123")) =
      [{ connection := 3
         bus_name := "org.gnome.keyring"
         object_path := "/org/freedesktop/secrets"
         interface_name := "org.gnome.keyring.InternalUnsupportedGuiltRiddenInterface"
         method_name := "ChangeWithMasterPassword"
         parameters :=
           ("/org/freedesktop/secrets/collection/login",
            { service := 1,
              value := { secret := [115, 101, 99, 114, 101, 116, 49, 50, 51],
                         content_type := "text/plain" } },
            { service := 1, value := { secret := [], content_type := "text/plain" } })
         timeout_msec := 2147483647 }] :=
  ⟨by decide,
   (rotation_call_arguments Env.allOk (QString.fromLiteral "secret123") 1 2 3
      (by decide) rfl rfl rfl).1⟩

/-! ## Outcomes -/

/-- C6: one run of `setKeyringPassword` issues the remote call at most
once, and issues it exactly when the session was opened, the lookup reported
no error and returned a collection, and the bus was obtained. The outcome is
that of the first step that did not succeed: `ServiceUnavailable`,
`CollectionLookupFailed`, `CollectionAbsent` (no error object, no warning),
`BusUnavailable`, `RotationRejected`, and `Done` when every step
succeeded. -/
theorem setKeyringPassword_outcome (env : Env) (current newPass : QString) :
    (remoteCalls (setKeyringPassword env current newPass)).length ≤ 1 ∧
    ((remoteCalls (setKeyringPassword env current newPass)).length = 1 ↔
      ∃ s c b, env.secret_service_get_sync = ServiceResult.ok s ∧
        env.secret_collection_for_alias_sync s = CollectionResult.found c ∧
        env.g_bus_get_sync = BusResult.ok b) ∧
    (∀ e, env.secret_service_get_sync = ServiceResult.failed e →
      rotationOutcome (setKeyringPassword env current newPass) =
        RotationOutcome.ServiceUnavailable) ∧
    (∀ s e, env.secret_service_get_sync = ServiceResult.ok s →
      env.secret_collection_for_alias_sync s = CollectionResult.failed e →
      rotationOutcome (setKeyringPassword env current newPass) =
        RotationOutcome.CollectionLookupFailed) ∧
    (∀ s, env.secret_service_get_sync = ServiceResult.ok s →
      env.secret_collection_for_alias_sync s = CollectionResult.absent →
      rotationOutcome (setKeyringPassword env current newPass) =
        RotationOutcome.CollectionAbsent ∧
      Event.acquire Var.err ∉ setKeyringPassword env current newPass ∧
      (setKeyringPassword env current newPass).any Event.isWarning = false) ∧
    (∀ s c e, env.secret_service_get_sync = ServiceResult.ok s →
      env.secret_collection_for_alias_sync s = CollectionResult.found c →
      env.g_bus_get_sync = BusResult.failed e →
      rotationOutcome (setKeyringPassword env current newPass) =
        RotationOutcome.BusUnavailable) ∧
    (∀ call e, call ∈ remoteCalls (setKeyringPassword env current newPass) →
      env.g_dbus_connection_call_sync call = CallResult.failed e →
      rotationOutcome (setKeyringPassword env current newPass) =
        RotationOutcome.RotationRejected) ∧
    (∀ call r, call ∈ remoteCalls (setKeyringPassword env current newPass) →
      env.g_dbus_connection_call_sync call = CallResult.ok r →
      rotationOutcome (setKeyringPassword env current newPass) = RotationOutcome.Done) := by
  rcases setKeyringPassword_paths env current newPass with
    ⟨e, hs, h⟩ | ⟨s, e, hs, hc, h⟩ | ⟨s, hs, hc, h⟩ | ⟨s, c, e, hs, hc, hb, h⟩ |
    ⟨s, c, b, e, hs, hc, hb, hr, h⟩ | ⟨s, c, b, r, hs, hc, hb, hr, h⟩
  · have ho : rotationOutcome (setKeyringPassword env current newPass) =
        RotationOutcome.ServiceUnavailable := by rw [h]; rfl
    have hn : remoteCalls (setKeyringPassword env current newPass) = [] := by rw [h]; rfl
    rw [ho, hn]
    simp [hs]
  · have ho : rotationOutcome (setKeyringPassword env current newPass) =
        RotationOutcome.CollectionLookupFailed := by rw [h]; rfl
    have hn : remoteCalls (setKeyringPassword env current newPass) = [] := by rw [h]; rfl
    rw [ho, hn]
    simp only [hs]
    refine ⟨by simp, ?_, by simp, by simp, ?_, ?_, by simp, by simp⟩
    · constructor
      · simp
      · rintro ⟨s1, c1, b1, h1, h2, _⟩; cases h1; simp [hc] at h2
    · intro s1 h1 h2; cases h1; simp [hc] at h2
    · intro s1 c1 e1 h1 h2; cases h1; simp [hc] at h2
  · have ho : rotationOutcome (setKeyringPassword env current newPass) =
        RotationOutcome.CollectionAbsent := by rw [h]; rfl
    have hn : remoteCalls (setKeyringPassword env current newPass) = [] := by rw [h]; rfl
    rw [ho, hn]
    simp only [hs]
    refine ⟨by simp, ?_, by simp, ?_, ?_, ?_, by simp, by simp⟩
    · constructor
      · simp
      · rintro ⟨s1, c1, b1, h1, h2, _⟩; cases h1; simp [hc] at h2
    · intro s1 e1 h1 h2; cases h1; simp [hc] at h2
    · intro s1 _ _; rw [h]; simp [Event.isWarning]
    · intro s1 c1 e1 h1 h2; cases h1; simp [hc] at h2
  · have ho : rotationOutcome (setKeyringPassword env current newPass) =
        RotationOutcome.BusUnavailable := by rw [h]; rfl
    have hn : remoteCalls (setKeyringPassword env current newPass) = [] := by rw [h]; rfl
    rw [ho, hn]
    simp only [hs, hb]
    refine ⟨by simp, by simp, by simp, ?_, ?_, by simp, by simp, by simp⟩
    · intro s1 e1 h1 h2; cases h1; simp [hc] at h2
    · intro s1 h1 h2; cases h1; simp [hc] at h2
  · have ho : rotationOutcome (setKeyringPassword env current newPass) =
        RotationOutcome.RotationRejected := by rw [h]; rfl
    have hn : remoteCalls (setKeyringPassword env current newPass) =
        [changeCall s b { secret := toLatin1 current, content_type := "text/plain" }
          { secret := toLatin1 newPass, content_type := "text/plain" }] := by rw [h]; rfl
    rw [ho, hn]
    simp only [hs, hb]
    refine ⟨by simp, ⟨fun _ => ⟨s, c, b, rfl, hc, rfl⟩, fun _ => by simp⟩, by simp,
      ?_, ?_, by simp, by simp, ?_⟩
    · intro s1 e1 h1 h2; cases h1; simp [hc] at h2
    · intro s1 h1 h2; cases h1; simp [hc] at h2
    · intro call r1 h1 h2
      rw [List.mem_singleton] at h1
      subst h1
      simp [hr] at h2
  · have ho : rotationOutcome (setKeyringPassword env current newPass) =
        RotationOutcome.Done := by rw [h]; rfl
    have hn : remoteCalls (setKeyringPassword env current newPass) =
        [changeCall s b { secret := toLatin1 current, content_type := "text/plain" }
          { secret := toLatin1 newPass, content_type := "text/plain" }] := by rw [h]; rfl
    rw [ho, hn]
    simp only [hs, hb]
    refine ⟨by simp, ⟨fun _ => ⟨s, c, b, rfl, hc, rfl⟩, fun _ => by simp⟩, by simp,
      ?_, ?_, by simp, ?_, by simp⟩
    · intro s1 e1 h1 h2; cases h1; simp [hc] at h2
    · intro s1 h1 h2; cases h1; simp [hc] at h2
    · intro call e1 h1 h2
      rw [List.mem_singleton] at h1
      subst h1
      simp [hr] at h2

/-! ## Release of the handles -/

/-- C7: on every path through `setKeyringPassword`, each of the error
object, the service session, the bus connection, the two secret values and
the reply is released exactly as many times as it was acquired, which is at
most once: what was acquired is released once, what was not acquired is not
released. -/
theorem setKeyringPassword_releases (env : Env) (current newPass : QString) (v : Var)
    (hv : v ≠ Var.collection) :
    (setKeyringPassword env current newPass).count (Event.release v) =
      (setKeyringPassword env current newPass).count (Event.acquire v) ∧
    (setKeyringPassword env current newPass).count (Event.acquire v) ≤ 1 := by
  rcases setKeyringPassword_paths env current newPass with
    ⟨e, hs, h⟩ | ⟨s, e, hs, hc, h⟩ | ⟨s, hs, hc, h⟩ | ⟨s, c, e, hs, hc, hb, h⟩ |
    ⟨s, c, b, e, hs, hc, hb, hr, h⟩ | ⟨s, c, b, r, hs, hc, hb, hr, h⟩ <;>
  · rw [h]
    cases v <;> simp [List.count_cons] at hv ⊢

/-- C7 on the path where the remote call is rejected, for the error
object: acquired once, released once. -/
theorem setKeyringPassword_releases_witness :
    (setKeyringPassword
        { Env.allOk with
            g_dbus_connection_call_sync := fun _ => CallResult.failed { message := "denied" } }
        (QString.fromLiteral "secret123") []).count (Event.release Var.err) = 1 :=
  (setKeyringPassword_releases
      { Env.allOk with
          g_dbus_connection_call_sync := fun _ => CallResult.failed { message := "denied" } }
      (QString.fromLiteral "secret123") [] Var.err (by decide)).1.trans (by decide)

/-- The collection handle is never released, on any path. -/
theorem collection_not_released (env : Env) (current newPass : QString) :
    Event.release Var.collection ∉ setKeyringPassword env current newPass := by
  rcases setKeyringPassword_paths env current newPass with
    ⟨e, hs, h⟩ | ⟨s, e, hs, hc, h⟩ | ⟨s, hs, hc, h⟩ | ⟨s, c, e, hs, hc, hb, h⟩ |
    ⟨s, c, b, e, hs, hc, hb, hr, h⟩ | ⟨s, c, b, r, hs, hc, hb, hr, h⟩ <;>
  · rw [h]
    simp

/-- C8 fails on the code: on a run where every step succeeds the collection
handle is acquired once and never released. -/
theorem collection_leak :
    (setKeyringPassword Env.allOk (QString.fromLiteral "secret123") []).count
        (Event.acquire Var.collection) = 1 ∧
    (setKeyringPassword Env.allOk (QString.fromLiteral "secret123") []).count
        (Event.release Var.collection) = 0 := by
  decide

/-! ## The registered identifiers -/

/-- The text `options` leaves on the check box: the translation of the
label of the branch taken, or the text the box had when no branch is taken. -/
theorem options_text (tr : String → QString) (a : QString) (m_checkBtn : Option QCheckBox)
    (npLogin amLogin : Bool) :
    (options tr a m_checkBtn npLogin amLogin).text =
      match classify a with
      | RotationIntent.EmptyPassword => tr "Empty keyring password"
      | RotationIntent.RestorePassword => tr "Restore keyring password"
      | RotationIntent.Ignore => (m_checkBtn.getD QCheckBox.new).text := by
  unfold options
  rw [optionsLabel_eq]
  cases classify a <;> cases m_checkBtn <;> rfl

/-- C10: `interestedActions` lists seven pairwise distinct identifiers, an
identifier is listed exactly when `extendedDo` does not ignore it, and
`options` sets the label `Empty keyring password` exactly for the identifiers
`extendedDo` passes to `emptyKeyringPassword` and `Restore keyring password`
exactly for those it passes to `restoreKeyringPassword`, leaving the text of
the box as it was for every other identifier. -/
theorem interestedActions_registered (env : Env) (tr : String → QString)
    (a password text : QString) (m_checkBtn : Option QCheckBox) (npLogin amLogin : Bool) :
    interestedActions.length = 7 ∧
    interestedActions.Nodup ∧
    (a ∈ interestedActions ↔
      classify a = RotationIntent.EmptyPassword ∨
      classify a = RotationIntent.RestorePassword) ∧
    (options tr a m_checkBtn npLogin amLogin).text =
      (match classify a with
       | RotationIntent.EmptyPassword => tr "Empty keyring password"
       | RotationIntent.RestorePassword => tr "Restore keyring password"
       | RotationIntent.Ignore => (m_checkBtn.getD QCheckBox.new).text) ∧
    ((options QString.fromLiteral a none npLogin amLogin).text =
        QString.fromLiteral "Empty keyring password" ↔
      extendedDo env a password (some { text := text, checkState := CheckState.Checked }) =
        emptyKeyringPassword env password) ∧
    ((options QString.fromLiteral a none npLogin amLogin).text =
        QString.fromLiteral "Restore keyring password" ↔
      extendedDo env a password (some { text := text, checkState := CheckState.Checked }) =
        restoreKeyringPassword env password) ∧
    ((options QString.fromLiteral a none npLogin amLogin).text = [] ↔
      extendedDo env a password (some { text := text, checkState := CheckState.Checked }) =
        []) ∧
    (tr "Empty keyring password" ≠ tr "Restore keyring password" →
      (m_checkBtn.getD QCheckBox.new).text ≠ tr "Empty keyring password" →
      (m_checkBtn.getD QCheckBox.new).text ≠ tr "Restore keyring password" →
      ((options tr a m_checkBtn npLogin amLogin).text = tr "Empty keyring password" ↔
        extendedDo env a password (some { text := text, checkState := CheckState.Checked }) =
          emptyKeyringPassword env password) ∧
      ((options tr a m_checkBtn npLogin amLogin).text = tr "Restore keyring password" ↔
        extendedDo env a password (some { text := text, checkState := CheckState.Checked }) =
          restoreKeyringPassword env password)) := by
  have h1 : QString.fromLiteral "Empty keyring password" ≠
      QString.fromLiteral "Restore keyring password" := by decide
  have h2 : QString.fromLiteral "Empty keyring password" ≠ [] := by decide
  have h3 : QString.fromLiteral "Restore keyring password" ≠ [] := by decide
  have h4 : QCheckBox.new.text = [] := rfl
  refine ⟨rfl, interestedActions_nodup, ?_, options_text tr a m_checkBtn npLogin amLogin,
    ?_, ?_, ?_, ?_⟩
  · rw [mem_interestedActions_iff]
    cases classify a <;> simp
  · rw [options_text]
    unfold extendedDo
    cases classify a <;>
      simp [checkBtnChecked, emptyKeyringPassword, restoreKeyringPassword, h1, h2, h3, h4,
        Ne.symm h1, Ne.symm h2, Ne.symm h3]
  · rw [options_text]
    unfold extendedDo
    cases classify a <;>
      simp [checkBtnChecked, emptyKeyringPassword, restoreKeyringPassword, h1, h2, h3, h4,
        Ne.symm h1, Ne.symm h2, Ne.symm h3]
  · rw [options_text]
    unfold extendedDo
    cases classify a <;>
      simp [checkBtnChecked, emptyKeyringPassword, restoreKeyringPassword, h1, h2, h3, h4,
        Ne.symm h1, Ne.symm h2, Ne.symm h3]
  · intro g1 g2 g3
    rw [options_text]
    unfold extendedDo
    cases classify a <;>
      simp [checkBtnChecked, emptyKeyringPassword, restoreKeyringPassword, g1, g2, g3,
        Ne.symm g1]

end GnomeKeyringExtention
